import Mathlib

/-!
# Verification of the `schedule-me` in-process job scheduler

Shallow embedding of `src/lib/index.js` (the whole library: `ScheduleMe`,
the scheduler, and `ScheduleMeJob`, a single scheduled job).

Modelling conventions:

* JavaScript exceptions are modelled explicitly: each stateful operation
  returns the state at exit together with the list of observable effects it
  produced and an `Option Err` that is `some e` when an exception escaped.
  Mutations performed before a throw are kept, exactly as in JavaScript.
* External capabilities (the `cron` package, `setInterval`, `setTimeout`,
  event emission on the `EventEmitter`) are modelled as effects recorded in
  a trace, carrying the same data the source passes to them.
* Logging (`this.logger.log`) is outside the modelled state, as the spec
  excludes the logging sink from scope.
* `uuid.v4()` and timer handles are modelled by a fresh-counter `fresh`
  threaded through the scheduler; only freshness/opacity matters.
* `new Date()` ("now") is a millisecond timestamp passed as an `Int`
  parameter to the operations that read the clock.
-/

/-- JavaScript runtime values, as far as the completion callback `jobEnded`
can observe them: `err` and `data` are arbitrary caller-supplied values, so
truthiness (not mere non-nullness) decides the branch taken. Objects,
arrays and functions are collapsed to an opaque reference, since all of
them are truthy. -/
inductive JSValue where
  | undefined
  | null
  | bool (b : Bool)
  | num (n : Int)
  | str (s : String)
  | objRef (id : Nat)
deriving DecidableEq, Repr

/-- JavaScript truthiness for the modelled values. -/
def JSValue.truthy : JSValue → Bool
  | .undefined => false
  | .null => false
  | .bool b => b
  | .num n => decide (n ≠ 0)
  | .str s => decide (s ≠ "")
  | .objRef _ => true

/-- The value stored in a job's `when` field once one is present: a string
(cron expression), a number (interval in ms) or a `Date` object (instant in
ms since the epoch). The source discriminates with `typeof(this.when) ==
'string'`, `typeof(this.when) == 'number'` and `this.when.getMonth`, which
are mutually exclusive for these three shapes. -/
inductive WhenVal where
  | str (s : String)
  | num (n : Int)
  | date (ms : Int)
deriving DecidableEq, Repr

/-- JavaScript falsiness of a present `when` value (`!this.when`): the
empty string and the number `0` are falsy; a `Date` object is always
truthy. -/
def whenFalsy : WhenVal → Bool
  | .str s => decide (s = "")
  | .num n => decide (n = 0)
  | .date _ => false

/-- Truthiness of an optional `when` (absent = `undefined`, falsy). -/
def whenTruthy : Option WhenVal → Bool
  | none => false
  | some w => !whenFalsy w

/-- `x || 'Unknown'` on an optional string (absent or empty gives the
sentinel, as in `this.options.name || 'Unknown'`). -/
def jsOrUnknown : Option String → String
  | none => "Unknown"
  | some s => if s = "" then "Unknown" else s

/-- The errors the source can throw. The first five are the `new Error`
sites of `index.js`; `typeError` stands for a runtime `TypeError` raised by
the JavaScript engine itself (calling a method of `undefined`, or calling a
missing `forEach`). -/
inductive Err where
  | noParent
  | missingCallable
  | missingTrigger
  | alreadyStarted
  | pastDate
  | typeError
deriving DecidableEq, Repr

/-- A caller-facing job specification object `{job, when, name, immediate}`.
`none` fields are absent (`undefined`). The callable is an opaque function
identifier. -/
structure JobSpec where
  job : Option Nat
  when : Option WhenVal
  name : Option String
  immediate : Bool
deriving DecidableEq, Repr

/-- The `options` object received by the `ScheduleMeJob` constructor:
a `JobSpec` plus the `parent` back-reference that `schedule` installs
(`options.parent = this`). -/
structure JobOptions where
  parent : Bool
  job : Option Nat
  when : Option WhenVal
  name : Option String
  immediate : Bool
deriving DecidableEq, Repr

/-- A constructed `ScheduleMeJob`. `cronJob`, `interval` and `dateTimeout`
are the instance properties holding the armed handle for the matching
trigger kind; they are `undefined` (`none`) until `start()` assigns them. -/
structure ScheduleMeJob where
  job : Nat
  when : WhenVal
  name : String
  immediate : Bool
  uniqueId : Nat
  cronJob : Option Nat
  interval : Option Nat
  dateTimeout : Option Nat
deriving DecidableEq, Repr

/-- An argument of the wrapped callable. The source wraps every timer-driven
invocation as `_.partial(this.job, _.bind(this.jobEnded, this))`, i.e. the
first argument is the job's own completion handler. -/
inductive CallArg where
  | completion (jobUid : Nat)
deriving DecidableEq, Repr

/-- Observable effects: event emissions on the owning scheduler, synchronous
callable invocations, and calls into the external timer/cron capabilities.
Arming effects record the expression/period/delay, the callable, the
argument list it was wrapped with, and the allocated handle. -/
inductive Effect where
  | emitJobStart (name : String) (jobId : Nat) (time : Int)
  | emitJobDone (data : JSValue) (time : Int) (jobId : Nat)
  | emitJobError (error : JSValue) (data : JSValue) (time : Int) (jobId : Nat)
  | invokeNow (fnId : Nat) (args : List CallArg)
  | armCron (expr : String) (fnId : Nat) (args : List CallArg) (handle : Nat)
  | armInterval (ms : Int) (fnId : Nat) (args : List CallArg) (handle : Nat)
  | armTimeout (delay : Int) (fnId : Nat) (args : List CallArg) (handle : Nat)
  | cancelCron (handle : Nat)
  | clearInterval (handle : Option Nat)
  | clearTimeout (handle : Option Nat)
deriving DecidableEq, Repr

/-- Does this effect arm a timer / cron registration? -/
def Effect.isArm : Effect → Bool
  | .armCron _ _ _ _ => true
  | .armInterval _ _ _ _ => true
  | .armTimeout _ _ _ _ => true
  | _ => false

/-- Is this effect a `jobError` emission? -/
def Effect.isJobError : Effect → Bool
  | .emitJobError _ _ _ _ => true
  | _ => false

/-- Is this effect a `jobDone` emission? -/
def Effect.isJobDone : Effect → Bool
  | .emitJobDone _ _ _ => true
  | _ => false

/-- Number of `jobError` emissions in a trace. -/
def countJobError (es : List Effect) : Nat := (es.filter Effect.isJobError).length

/-- Number of `jobDone` emissions in a trace. -/
def countJobDone (es : List Effect) : Nat := (es.filter Effect.isJobDone).length

/-- Number of synchronous callable invocations in a trace. -/
def countInvokeNow (es : List Effect) : Nat :=
  (es.filter fun e => match e with | .invokeNow _ _ => true | _ => false).length

/-- The `ScheduleMeJob(options)` constructor. Checks, in source order:
`!this.parent`, `!this.job`, `!this.when`; each failing check throws.
On success stores the fields, defaults the name, draws a fresh
`uniqueId`, and performs no effect: nothing is invoked or armed. -/
def ScheduleMeJob.construct (opts : JobOptions) (uid : Nat) :
    Except Err ScheduleMeJob :=
  if opts.parent = false then .error .noParent
  else
    match opts.job with
    | none => .error .missingCallable
    | some f =>
      match opts.when with
      | none => .error .missingTrigger
      | some w =>
        if whenFalsy w then .error .missingTrigger
        else .ok { job := f, when := w, name := jsOrUnknown opts.name,
                   immediate := opts.immediate, uniqueId := uid,
                   cronJob := none, interval := none, dateTimeout := none }

/-- Result of `ScheduleMeJob.prototype.start`: the job state at exit, the
effect trace, and the escaped exception if any. -/
structure JobStartRes where
  job : ScheduleMeJob
  effects : List Effect
  err : Option Err
deriving DecidableEq, Repr

/-- `ScheduleMeJob.prototype.start`. In source order: emit `jobStart`;
if `options.immediate`, call `this.job()` — with an empty argument list,
no completion handler is passed on this invocation; then dispatch on the
type of `this.when` (exactly one of the three `if` blocks of the source
fires, since `when` has exactly one shape): arm a cron registration, a
repeating interval, or — after the past-date check `msUntilDate < 0`,
which throws after the effects already produced — a one-shot timeout
for `msUntilDate = when - now`. `h` is the fresh handle for whatever
gets armed; `now` is the clock at the moment `start()` runs. -/
def ScheduleMeJob.start (j : ScheduleMeJob) (now : Int) (h : Nat) : JobStartRes :=
  let es0 := [Effect.emitJobStart j.name j.uniqueId now]
  let es1 := if j.immediate then es0 ++ [Effect.invokeNow j.job []] else es0
  match j.when with
  | .str s =>
    { job := { j with cronJob := some h },
      effects := es1 ++ [Effect.armCron s j.job [CallArg.completion j.uniqueId] h],
      err := none }
  | .num n =>
    { job := { j with interval := some h },
      effects := es1 ++ [Effect.armInterval n j.job [CallArg.completion j.uniqueId] h],
      err := none }
  | .date d =>
    let msUntilDate := d - now
    if msUntilDate < 0 then { job := j, effects := es1, err := some .pastDate }
    else
      { job := { j with dateTimeout := some h },
        effects := es1 ++ [Effect.armTimeout msUntilDate j.job [CallArg.completion j.uniqueId] h],
        err := none }

/-- `ScheduleMeJob.prototype.jobEnded(err, data)`: `if (err)` — JavaScript
truthiness — emit `jobError {error, data, time, job_id}`, else emit
`jobDone {data, time, job_id}`. Returns the (single-element) emission
trace. -/
def ScheduleMeJob.jobEnded (j : ScheduleMeJob) (now : Int) (err data : JSValue) :
    List Effect :=
  if err.truthy then [Effect.emitJobError err data now j.uniqueId]
  else [Effect.emitJobDone data now j.uniqueId]

/-- Result of `ScheduleMeJob.prototype.stop`: stop assigns no instance
property, so only a trace and a possible exception are produced. -/
structure JobStopRes where
  effects : List Effect
  err : Option Err
deriving DecidableEq, Repr

/-- `ScheduleMeJob.prototype.stop`. Dispatches on the type of `this.when`
(as in `start`, exactly one of the source's `if` blocks fires). For a cron
job it calls `this.cronJob.stop()`: if `start()` never assigned `cronJob`,
that is a method call on `undefined` and raises a `TypeError`. For interval
and date jobs it calls `clearInterval(this.interval)` /
`clearTimeout(this.dateTimeout)`, both of which tolerate `undefined`. -/
def ScheduleMeJob.stop (j : ScheduleMeJob) : JobStopRes :=
  match j.when with
  | .str _ =>
    match j.cronJob with
    | none => { effects := [], err := some .typeError }
    | some h => { effects := [Effect.cancelCron h], err := none }
  | .num _ => { effects := [Effect.clearInterval j.interval], err := none }
  | .date _ => { effects := [Effect.clearTimeout j.dateTimeout], err := none }

/-- The `ScheduleMe` scheduler: the ordered job registry, the `started`
flag, and the fresh counter standing in for `uuid.v4()`/handle
allocation. -/
structure ScheduleMe where
  jobs : List ScheduleMeJob
  started : Bool
  fresh : Nat
deriving DecidableEq, Repr

/-- The first argument of `ScheduleMe.prototype.schedule(func, when, name)`,
discriminated exactly as the source does with `typeof(func) === 'object'`:
a plain options object and an array are both `'object'` (an array's `job`,
`when` and `name` properties are `undefined`); a function or an absent
argument takes the positional branch. -/
inductive ScheduleArg where
  | structured (spec : JobSpec)
  | arrayArg (specs : List JobSpec)
  | positional (func : Option Nat) (when : Option WhenVal) (name : Option String)
deriving DecidableEq, Repr

/-- Result of `schedule`: scheduler at exit, returned job (the source
returns the new job on success; an exception returns nothing), effect
trace, escaped exception. -/
structure SchedRes where
  sched : ScheduleMe
  ret : Option ScheduleMeJob
  effects : List Effect
  err : Option Err
deriving DecidableEq, Repr

/-- The `options` object `schedule` builds from its first arguments: for
the positional form `{job: func, when: when, name: name || 'Unknown'}`
(no `immediate`); for an object argument the object itself; for an array
argument the array, whose `job`/`when`/`name` properties are `undefined`.
In every case `schedule` then sets `options.parent = this`. -/
def scheduleOptions : ScheduleArg → JobOptions
  | .structured spec =>
    { parent := true, job := spec.job, when := spec.when,
      name := spec.name, immediate := spec.immediate }
  | .arrayArg _ =>
    { parent := true, job := none, when := none, name := none, immediate := false }
  | .positional f w n =>
    { parent := true, job := f, when := w,
      name := some (jsOrUnknown n), immediate := false }

/-- `ScheduleMe.prototype.schedule`. Builds the `options` object
(`scheduleOptions`), constructs the `ScheduleMeJob`, and only then pushes
it onto `this.jobs` and returns it — so a constructor throw leaves the
registry untouched, and nothing is invoked or armed either way. -/
def ScheduleMe.schedule (s : ScheduleMe) (arg : ScheduleArg) : SchedRes :=
  match ScheduleMeJob.construct (scheduleOptions arg) s.fresh with
  | .error e => { sched := s, ret := none, effects := [], err := some e }
  | .ok job =>
    { sched := { s with jobs := s.jobs ++ [job], fresh := s.fresh + 1 },
      ret := some job, effects := [], err := none }

/-- One element of the array passed to `scheduleAll`: a spec object or a
nested array of specs. -/
inductive SpecItem where
  | obj (spec : JobSpec)
  | arr (specs : List JobSpec)
deriving DecidableEq, Repr

/-- The argument of `scheduleAll`: a single (non-array) object, or an
array of items. The source tests `jobs.job` to detect the single-object
case. -/
inductive SchedAllArg where
  | one (spec : JobSpec)
  | many (items : List SpecItem)
deriving DecidableEq, Repr

/-- Result of `scheduleAll`/`start`/`stop` at the scheduler level. -/
structure OpRes where
  sched : ScheduleMe
  effects : List Effect
  err : Option Err
deriving DecidableEq, Repr

/-- The `jobs.forEach` loop of `scheduleAll`. The source guards a flatten
branch with `if (typeof(j) == 'array')`, but in JavaScript `typeof` of an
array is `'object'`, never `'array'`, so that branch is unreachable and
every item — nested arrays included — is passed to `schedule(j)` by the
`else` branch. An exception from `schedule` aborts the loop, keeping the
jobs pushed so far. -/
def scheduleItems : ScheduleMe → List SpecItem → ScheduleMe × Option Err
  | s, [] => (s, none)
  | s, item :: rest =>
    let r :=
      match item with
      | .obj sp => s.schedule (.structured sp)
      | .arr ss => s.schedule (.arrayArg ss)
    match r.err with
    | some e => (r.sched, some e)
    | none => scheduleItems r.sched rest

/-- `ScheduleMe.prototype.scheduleAll(jobs)`. If `jobs.job` is truthy the
argument is treated as a single spec and passed to `schedule`. Otherwise
`jobs.forEach` is called: on a non-array object without a truthy `job`
that is a `TypeError` (`forEach` is `undefined`); on an array the loop
runs as in `scheduleItems`. -/
def ScheduleMe.scheduleAll (s : ScheduleMe) (arg : SchedAllArg) : ScheduleMe × Option Err :=
  match arg with
  | .one spec =>
    if spec.job.isSome then
      let r := s.schedule (.structured spec)
      (r.sched, r.err)
    else (s, some .typeError)
  | .many items => scheduleItems s items

/-- The `this.jobs.forEach(function(job) { job.start(); })` loop of
`ScheduleMe.prototype.start`, threading the fresh handle counter. A
throwing `job.start()` aborts the loop: jobs already started stay
started (their updated state is kept), later jobs are not started. -/
def startJobsFrom (now : Int) : Nat → List ScheduleMeJob →
    List ScheduleMeJob × List Effect × Option Err × Nat
  | h, [] => ([], [], none, h)
  | h, j :: rest =>
    let r := j.start now h
    match r.err with
    | some e => (r.job :: rest, r.effects, some e, h + 1)
    | none =>
      let (rest2, es2, e2, h2) := startJobsFrom now (h + 1) rest
      (r.job :: rest2, r.effects ++ es2, e2, h2)

/-- `ScheduleMe.prototype.start`. `if (this.started) throw` — before any
job is touched, so the already-started failure has no side effect at all.
Otherwise every job is started in registry order and `this.started = true`
is assigned only after the loop (skipped if a job's start throws). -/
def ScheduleMe.start (s : ScheduleMe) (now : Int) : OpRes :=
  if s.started then { sched := s, effects := [], err := some .alreadyStarted }
  else
    let (jobs2, es, e, h2) := startJobsFrom now s.fresh s.jobs
    match e with
    | some err => { sched := { s with jobs := jobs2, fresh := h2 }, effects := es, err := some err }
    | none =>
      { sched := { s with jobs := jobs2, started := true, fresh := h2 },
        effects := es, err := none }

/-- The `this.jobs.forEach(function(job) { job.stop(); })` loop of
`ScheduleMe.prototype.stop`. `ScheduleMeJob.stop` assigns no instance
property, so the registry entries are unchanged; a throwing `job.stop()`
aborts the loop. -/
def stopJobs : List ScheduleMeJob → List Effect × Option Err
  | [] => ([], none)
  | j :: rest =>
    let r := j.stop
    match r.err with
    | some e => (r.effects, some e)
    | none =>
      let (es2, e2) := stopJobs rest
      (r.effects ++ es2, e2)

/-- `ScheduleMe.prototype.stop`. No precondition check in the source; it
stops every job in registry order and assigns `this.started = false` after
the loop — an assignment that is skipped when a job's `stop()` throws,
since the exception propagates first. -/
def ScheduleMe.stop (s : ScheduleMe) : OpRes :=
  let (es, e) := stopJobs s.jobs
  match e with
  | some err => { sched := s, effects := es, err := some err }
  | none => { sched := { s with started := false }, effects := es, err := none }

/-! ## Concrete fixtures -/

/-- The empty scheduler, as produced by `new ScheduleMe()`. -/
def s0 : ScheduleMe := { jobs := [], started := false, fresh := 0 }

/-- A well-formed flat interval job spec, used as a leaf. -/
def leafSpec : JobSpec :=
  { job := some 1, when := some (WhenVal.num 5), name := some "leaf", immediate := false }

/-- A well-formed interval job spec with `immediate: true`. -/
def immSpec : JobSpec :=
  { job := some 3, when := some (WhenVal.num 50), name := some "imm", immediate := true }

/-- The job `schedule` constructs from `immSpec` on the empty scheduler. -/
def immJob : ScheduleMeJob :=
  { job := 3, when := WhenVal.num 50, name := "imm", immediate := true, uniqueId := 0,
    cronJob := none, interval := none, dateTimeout := none }

/-- A well-formed cron job spec (no name given, so the sentinel applies). -/
def cronSpec : JobSpec :=
  { job := some 1, when := some (WhenVal.str "0 * * * * *"), name := none, immediate := false }

/-- A cron job that was constructed but never started: `cronJob` is absent. -/
def cronJobU : ScheduleMeJob :=
  { job := 1, when := WhenVal.str "0 * * * * *", name := "Unknown", immediate := false,
    uniqueId := 0, cronJob := none, interval := none, dateTimeout := none }

/-- An interval job that was constructed but never started. -/
def intervalJobU : ScheduleMeJob :=
  { job := 2, when := WhenVal.num 5, name := "Unknown", immediate := false,
    uniqueId := 1, cronJob := none, interval := none, dateTimeout := none }

/-- A date job (instant 1000 ms) that was constructed but never started. -/
def dateJobU : ScheduleMeJob :=
  { job := 4, when := WhenVal.date 1000, name := "Unknown", immediate := false,
    uniqueId := 2, cronJob := none, interval := none, dateTimeout := none }

/-- A scheduler that was started while its registry was empty. -/
def s1 : ScheduleMe := (s0.start 0).sched

/-- `s1` after a cron job was scheduled post-start: `started` is `true` and
the registry holds one never-started cron job. -/
def s2 : ScheduleMe := (s1.schedule (ScheduleArg.structured cronSpec)).sched

/-! ## Claims -/

/-- Claim C1: the spec says `scheduleAll` flattens a one-level nested list
of specs and registers every leaf, as if `schedule` were called on each
leaf. The code does not: `typeof(j) == 'array'` is never true in
JavaScript, so a nested array is handed to `schedule` itself, which treats
it as an options object with `job === undefined` and throws the
missing-callable error before any leaf is registered — while scheduling
the same leaf directly succeeds and registers exactly one job. -/
theorem scheduleAll_nested_list_not_flattened :
    s0.scheduleAll (SchedAllArg.many [SpecItem.arr [leafSpec]])
      = (s0, some Err.missingCallable)
    ∧ (s0.schedule (ScheduleArg.structured leafSpec)).err = none
    ∧ ((s0.schedule (ScheduleArg.structured leafSpec)).sched.jobs.map ScheduleMeJob.job)
      = [1] := by
  refine ⟨rfl, rfl, rfl⟩

/-- Claim C2: the spec says the immediate invocation receives, as its
first argument, a completion callback bound to the job's own `jobEnded`.
The code invokes `this.job()` with an empty argument list: `start()` on an
immediate interval job performs exactly one synchronous invocation, but
its argument list is `[]` rather than `[CallArg.completion uid]` — the
completion handler the timer-driven path would pass (visible in the
arming effect) is absent, so the immediate invocation cannot report
`jobDone`/`jobError`. -/
theorem immediate_invocation_lacks_completion_arg :
    (s0.schedule (ScheduleArg.structured immSpec)).ret = some immJob
    ∧ (immJob.start 100 7).effects
      = [Effect.emitJobStart "imm" 0 100,
         Effect.invokeNow 3 [],
         Effect.armInterval 50 3 [CallArg.completion 0] 7]
    ∧ countInvokeNow (immJob.start 100 7).effects = 1 := by
  refine ⟨rfl, rfl, rfl⟩

/-- Claim C3: the spec says `stop()` on a never-started job of any trigger
kind must not throw. For a cron job the code runs `this.cronJob.stop()`
with `cronJob` still `undefined`, which raises a `TypeError`; the interval
and date kinds do tolerate the absent handle (`clearInterval`/`clearTimeout`
accept `undefined`), so the cron kind is the violation. -/
theorem stop_neverStarted_cron_raises_typeError :
    (s0.schedule (ScheduleArg.structured cronSpec)).ret = some cronJobU
    ∧ cronJobU.stop = { effects := [], err := some Err.typeError }
    ∧ intervalJobU.stop = { effects := [Effect.clearInterval none], err := none }
    ∧ dateJobU.stop = { effects := [Effect.clearTimeout none], err := none } := by
  refine ⟨rfl, rfl, rfl, rfl⟩

/-- Claim C7: the spec says `Scheduler.stop()` has no precondition and
sets `started` to `false` unconditionally. On a scheduler that was started
with an empty registry and then had a cron job scheduled (still
unstarted), `stop()` propagates the `TypeError` from that job's `stop()`,
so the assignment `this.started = false` is never reached: `started`
remains `true` and the call throws. -/
theorem scheduler_stop_not_unconditional :
    s2.started = true
    ∧ s2.stop = { sched := s2, effects := [], err := some Err.typeError } := by
  refine ⟨rfl, rfl⟩

/-! ## Date-trigger validation (C4) -/

/-- The effects `ScheduleMeJob.start` produces before the trigger dispatch:
the `jobStart` emission and, for an immediate job, the synchronous
invocation. -/
def startEmissions (j : ScheduleMeJob) (now : Int) : List Effect :=
  if j.immediate then
    [Effect.emitJobStart j.name j.uniqueId now, Effect.invokeNow j.job []]
  else [Effect.emitJobStart j.name j.uniqueId now]

theorem startEmissions_no_arm (j : ScheduleMeJob) (now : Int) :
    (startEmissions j now).filter Effect.isArm = [] := by
  cases h : j.immediate <;> simp [startEmissions, h, Effect.isArm, List.filter]

theorem start_date_eq (j : ScheduleMeJob) (d now : Int) (h : Nat)
    (hw : j.when = WhenVal.date d) :
    j.start now h =
      if d - now < 0 then
        { job := j, effects := startEmissions j now, err := some Err.pastDate }
      else
        { job := { j with dateTimeout := some h },
          effects := startEmissions j now
            ++ [Effect.armTimeout (d - now) j.job [CallArg.completion j.uniqueId] h],
          err := none } := by
  cases hi : j.immediate <;>
    simp [ScheduleMeJob.start, hw, hi, startEmissions]

/-- Claim C4 (amended): `start()` on a Date-trigger job fails with the
`PastDate` error if and only if the instant is strictly before "now" at
the moment `start()` runs (`msUntilDate = instant - now < 0`); an instant
equal to "now" is accepted. On failure no timer is armed and the job's
stored handles are unchanged; otherwise a one-shot timer for
`delay = instant - now` is armed. Validation reads the `now` passed to
`start`, not anything recorded at construction. -/
theorem date_start_pastDate_iff_strictly_before (j : ScheduleMeJob) (d now : Int)
    (h : Nat) (hw : j.when = WhenVal.date d) :
    ((j.start now h).err = some Err.pastDate ↔ d < now)
    ∧ (d < now →
        (j.start now h).effects.filter Effect.isArm = []
        ∧ (j.start now h).job = j)
    ∧ (now ≤ d →
        (j.start now h).err = none
        ∧ (j.start now h).effects.filter Effect.isArm
          = [Effect.armTimeout (d - now) j.job [CallArg.completion j.uniqueId] h]
        ∧ (j.start now h).job = { j with dateTimeout := some h }) := by
  rw [start_date_eq j d now h hw]
  rcases lt_or_le d now with hc | hc
  · have hneg : d - now < 0 := sub_neg.mpr hc
    simp [hneg, hc, startEmissions_no_arm, not_le.mpr hc]
  · have hneg : ¬ d - now < 0 := not_lt.mpr (sub_nonneg.mpr hc)
    simp [hneg, not_lt.mpr hc, hc, startEmissions_no_arm, Effect.isArm,
      List.filter_append]

/-- Witness for the amended C4 theorem at a concrete input: `dateJobU` has
instant 1000; at `now = 500` the instant is still in the future, so no
error and a one-shot timer for 500 ms. -/
theorem date_start_pastDate_iff_strictly_before_witness :
    (((dateJobU.start 500 9).err = some Err.pastDate ↔ (1000 : Int) < 500)
    ∧ ((1000 : Int) < 500 →
        (dateJobU.start 500 9).effects.filter Effect.isArm = []
        ∧ (dateJobU.start 500 9).job = dateJobU)
    ∧ ((500 : Int) ≤ 1000 →
        (dateJobU.start 500 9).err = none
        ∧ (dateJobU.start 500 9).effects.filter Effect.isArm
          = [Effect.armTimeout (1000 - 500) dateJobU.job
              [CallArg.completion dateJobU.uniqueId] 9]
        ∧ (dateJobU.start 500 9).job = { dateJobU with dateTimeout := some 9 })) :=
  date_start_pastDate_iff_strictly_before dateJobU 1000 500 9 rfl

/-- Counterexample to Claim C4 as stated: with `now = 1000`, the instant
1000 is *not strictly in the future*, so the claim requires a `PastDate`
failure with no timer armed — but the code computes `msUntilDate = 0`,
`0 < 0` is false, and a zero-delay one-shot timer is armed with no
error. -/
theorem date_start_boundary_counterexample :
    ¬ ((1000 : Int) > 1000)
    ∧ (dateJobU.start 1000 9).err = none
    ∧ (dateJobU.start 1000 9).effects
      = [Effect.emitJobStart "Unknown" 2 1000,
         Effect.armTimeout 0 4 [CallArg.completion 2] 9] := by
  refine ⟨by decide, rfl, rfl⟩

/-! ## Scheduler start guard (C5) -/

/-- Claim C5: `Scheduler.start()` on a scheduler whose `started` flag is
already `true` fails with the `AlreadyStarted` error before touching any
job: the returned scheduler is the argument itself (registry, flag and
counter unchanged) and the effect trace is empty — no job is started or
restarted. -/
theorem start_alreadyStarted_no_side_effects (s : ScheduleMe) (now : Int)
    (h : s.started = true) :
    s.start now = { sched := s, effects := [], err := some Err.alreadyStarted } := by
  simp [ScheduleMe.start, h]

/-- Witness for C5 at a concrete input: `s2` is a started scheduler
holding one job. -/
theorem start_alreadyStarted_no_side_effects_witness :
    s2.started = true
    ∧ s2.start 123 = { sched := s2, effects := [], err := some Err.alreadyStarted } :=
  ⟨rfl, start_alreadyStarted_no_side_effects s2 123 rfl⟩

/-! ## Completion handler (C6) -/

/-- Claim C6 (amended): an invocation of `jobEnded(err, data)` with a
*truthy* `err` emits exactly one `jobError` event carrying that error, the
data, the timestamp and the job's id, and no `jobDone`; an invocation with
a *falsy* `err` (`null`, absent, `false`, `0`, `''`) emits exactly one
`jobDone` carrying the data, the timestamp and the job's id, and no
`jobError`. -/
theorem jobEnded_dispatches_on_truthiness (j : ScheduleMeJob) (now : Int)
    (err data : JSValue) :
    (err.truthy = true →
      j.jobEnded now err data = [Effect.emitJobError err data now j.uniqueId]
      ∧ countJobError (j.jobEnded now err data) = 1
      ∧ countJobDone (j.jobEnded now err data) = 0)
    ∧ (err.truthy = false →
      j.jobEnded now err data = [Effect.emitJobDone data now j.uniqueId]
      ∧ countJobDone (j.jobEnded now err data) = 1
      ∧ countJobError (j.jobEnded now err data) = 0) := by
  constructor <;> intro h <;>
    simp [ScheduleMeJob.jobEnded, h, countJobError, countJobDone,
      Effect.isJobError, Effect.isJobDone, List.filter]

/-- Witness for the amended C6 theorem: a truthy error string yields
exactly one `jobError` and no `jobDone`. -/
theorem jobEnded_dispatches_on_truthiness_witness :
    (JSValue.str "boom").truthy = true
    ∧ (cronJobU.jobEnded 3 (JSValue.str "boom") JSValue.null
        = [Effect.emitJobError (JSValue.str "boom") JSValue.null 3 cronJobU.uniqueId]
      ∧ countJobError (cronJobU.jobEnded 3 (JSValue.str "boom") JSValue.null) = 1
      ∧ countJobDone (cronJobU.jobEnded 3 (JSValue.str "boom") JSValue.null) = 0) :=
  ⟨by decide,
   (jobEnded_dispatches_on_truthiness cronJobU 3 (JSValue.str "boom") JSValue.null).1
     (by decide)⟩

/-- Counterexample to Claim C6 as stated: `err = false` is neither `null`
nor absent (`undefined`), so the claim requires a `jobError` carrying it —
but `if (err)` tests truthiness, `false` is falsy, and the code emits a
`jobDone` and zero `jobError` events. -/
theorem jobEnded_nonNull_falsy_error_counterexample :
    (JSValue.bool false ≠ JSValue.null ∧ JSValue.bool false ≠ JSValue.undefined)
    ∧ cronJobU.jobEnded 3 (JSValue.bool false) (JSValue.num 1)
      = [Effect.emitJobDone (JSValue.num 1) 3 0]
    ∧ countJobError (cronJobU.jobEnded 3 (JSValue.bool false) (JSValue.num 1)) = 0 := by
  refine ⟨by decide, rfl, rfl⟩

/-! ## Schedule validation (C8) -/

/-- Claim C8: in both the structured and the positional form of
`schedule`, an absent callable fails with the missing-callable error and
an absent (or falsy) trigger — checked after the callable — fails with
the missing-trigger error; each failure is returned synchronously to the
caller with the registry, the scheduler state and the effect trace all
untouched, and no job appended. -/
theorem schedule_validation_errors (s : ScheduleMe) (spec : JobSpec)
    (f : Nat) (w : Option WhenVal) (n : Option String) :
    (spec.job = none →
      s.schedule (ScheduleArg.structured spec)
        = { sched := s, ret := none, effects := [], err := some Err.missingCallable })
    ∧ (spec.job = some f → whenTruthy spec.when = false →
      s.schedule (ScheduleArg.structured spec)
        = { sched := s, ret := none, effects := [], err := some Err.missingTrigger })
    ∧ (s.schedule (ScheduleArg.positional none w n)
        = { sched := s, ret := none, effects := [], err := some Err.missingCallable })
    ∧ (whenTruthy w = false →
      s.schedule (ScheduleArg.positional (some f) w n)
        = { sched := s, ret := none, effects := [], err := some Err.missingTrigger }) := by
  refine ⟨?_, ?_, ?_, ?_⟩
  · intro hj
    simp [ScheduleMe.schedule, scheduleOptions, ScheduleMeJob.construct, hj]
  · intro hj hw
    cases hwv : spec.when with
    | none => simp [ScheduleMe.schedule, scheduleOptions, ScheduleMeJob.construct, hj, hwv]
    | some w' =>
      rw [hwv] at hw
      have hf : whenFalsy w' = true := by
        simpa [whenTruthy] using hw
      simp [ScheduleMe.schedule, scheduleOptions, ScheduleMeJob.construct, hj, hwv, hf]
  · simp [ScheduleMe.schedule, scheduleOptions, ScheduleMeJob.construct]
  · intro hw
    cases hwv : w with
    | none => simp [ScheduleMe.schedule, scheduleOptions, ScheduleMeJob.construct]
    | some w' =>
      rw [hwv] at hw
      have hf : whenFalsy w' = true := by
        simpa [whenTruthy] using hw
      simp [ScheduleMe.schedule, scheduleOptions, ScheduleMeJob.construct, hf]

/-- Witness for C8 at concrete inputs: a structured spec without a
callable, and a positional call with a callable but no trigger. -/
theorem schedule_validation_errors_witness :
    ((JobSpec.mk none (some (WhenVal.num 5)) none false).job = none
    ∧ s0.schedule (ScheduleArg.structured (JobSpec.mk none (some (WhenVal.num 5)) none false))
        = { sched := s0, ret := none, effects := [], err := some Err.missingCallable })
    ∧ (whenTruthy none = false
    ∧ s0.schedule (ScheduleArg.positional (some 1) none none)
        = { sched := s0, ret := none, effects := [], err := some Err.missingTrigger }) :=
  ⟨⟨rfl, (schedule_validation_errors s0 (JobSpec.mk none (some (WhenVal.num 5)) none false)
      1 none none).1 rfl⟩,
   ⟨rfl, (schedule_validation_errors s0 (JobSpec.mk none (some (WhenVal.num 5)) none false)
      1 none none).2.2.2 rfl⟩⟩

/-! ## Schedule frame (C9) -/

/-- The job `ScheduleMeJob.construct` builds from a valid spec: fields
copied from the spec, name defaulted, fresh id, and all three timer
handles absent. -/
def mkFreshJob (spec : JobSpec) (f : Nat) (w : WhenVal) (uid : Nat) : ScheduleMeJob :=
  { job := f, when := w, name := jsOrUnknown spec.name, immediate := spec.immediate,
    uniqueId := uid, cronJob := none, interval := none, dateTimeout := none }

/-- Claim C9: for a valid spec, `schedule` only constructs the job and
appends it to the registry. The result spells the frame out: the previous
registry is a prefix, `started` is whatever it was (the claim covers
`started = true` since `s` is arbitrary), the effect trace is empty (the
callable is not invoked and nothing is armed), and the new job's three
timer handles are all absent, so the job stays unarmed until it is started
explicitly. -/
theorem schedule_only_appends (s : ScheduleMe) (spec : JobSpec) (f : Nat) (w : WhenVal)
    (hf : spec.job = some f) (hw : spec.when = some w) (ht : whenFalsy w = false) :
    s.schedule (ScheduleArg.structured spec)
      = { sched := { jobs := s.jobs ++ [mkFreshJob spec f w s.fresh],
                     started := s.started, fresh := s.fresh + 1 },
          ret := some (mkFreshJob spec f w s.fresh),
          effects := [], err := none } := by
  simp [ScheduleMe.schedule, scheduleOptions, ScheduleMeJob.construct, hf, hw, ht, mkFreshJob]

/-- A started scheduler with an empty registry, for the C9 witness. -/
def sStarted : ScheduleMe := { jobs := [], started := true, fresh := 0 }

/-- Witness for C9 at a concrete input: scheduling `leafSpec` on a
scheduler that is already started appends one unarmed job, keeps
`started = true`, and produces no effects. -/
theorem schedule_only_appends_witness :
    leafSpec.job = some 1
    ∧ leafSpec.when = some (WhenVal.num 5)
    ∧ whenFalsy (WhenVal.num 5) = false
    ∧ sStarted.schedule (ScheduleArg.structured leafSpec)
      = { sched := { jobs := [mkFreshJob leafSpec 1 (WhenVal.num 5) 0],
                     started := true, fresh := 1 },
          ret := some (mkFreshJob leafSpec 1 (WhenVal.num 5) 0),
          effects := [], err := none } :=
  ⟨rfl, rfl, rfl, schedule_only_appends sStarted leafSpec 1 (WhenVal.num 5) rfl rfl rfl⟩

/-! ## Falsy triggers are rejected at construction (C10) -/

theorem construct_when_not_falsy (opts : JobOptions) (uid : Nat) (j : ScheduleMeJob)
    (h : ScheduleMeJob.construct opts uid = Except.ok j) :
    whenFalsy j.when = false := by
  unfold ScheduleMeJob.construct at h
  split at h
  · exact absurd h (by simp)
  · split at h
    · exact absurd h (by simp)
    · split at h
      · exact absurd h (by simp)
      · split at h
        · exact absurd h (by simp)
        · rename_i hfw
          cases h
          simpa using hfw

theorem schedule_ret_when_not_falsy (s : ScheduleMe) (arg : ScheduleArg)
    (j : ScheduleMeJob) (h : (s.schedule arg).ret = some j) :
    whenFalsy j.when = false := by
  unfold ScheduleMe.schedule at h
  cases hc : ScheduleMeJob.construct (scheduleOptions arg) s.fresh with
  | error e => rw [hc] at h; exact absurd h (by simp)
  | ok j2 =>
    rw [hc] at h
    simp at h
    rw [← h]
    exact construct_when_not_falsy (scheduleOptions arg) s.fresh j2 hc

/-- Claim C10: a present-but-falsy trigger value — the interval `0` or the
empty cron expression — is rejected by the constructor's `!this.when`
check with the missing-trigger error, before any dispatch on the trigger's
runtime type, leaving the scheduler untouched; consequently no job that
`schedule` ever returns has a falsy trigger, so an `Interval(0)` job can
never exist. -/
theorem falsy_trigger_rejected (s : ScheduleMe) (f : Nat) (n : Option String)
    (im : Bool) :
    (s.schedule (ScheduleArg.structured
        { job := some f, when := some (WhenVal.num 0), name := n, immediate := im })
      = { sched := s, ret := none, effects := [], err := some Err.missingTrigger })
    ∧ (s.schedule (ScheduleArg.structured
        { job := some f, when := some (WhenVal.str ""), name := n, immediate := im })
      = { sched := s, ret := none, effects := [], err := some Err.missingTrigger })
    ∧ (∀ arg : ScheduleArg, ∀ j : ScheduleMeJob,
        (s.schedule arg).ret = some j → whenFalsy j.when = false) := by
  refine ⟨?_, ?_, ?_⟩
  · simp [ScheduleMe.schedule, scheduleOptions, ScheduleMeJob.construct, whenFalsy]
  · simp [ScheduleMe.schedule, scheduleOptions, ScheduleMeJob.construct, whenFalsy]
  · intro arg j h
    exact schedule_ret_when_not_falsy s arg j h

/-- Witness for C10 at a concrete input: the interval `0` and the empty
cron expression are both rejected on the empty scheduler, and the one job
registered from `leafSpec` has a non-falsy trigger. -/
theorem falsy_trigger_rejected_witness :
    (s0.schedule (ScheduleArg.structured
        { job := some 1, when := some (WhenVal.num 0), name := none, immediate := false })
      = { sched := s0, ret := none, effects := [], err := some Err.missingTrigger })
    ∧ ((s0.schedule (ScheduleArg.structured leafSpec)).ret = some
        (mkFreshJob leafSpec 1 (WhenVal.num 5) 0)
      ∧ whenFalsy (mkFreshJob leafSpec 1 (WhenVal.num 5) 0).when = false) :=
  ⟨(falsy_trigger_rejected s0 1 none false).1,
   rfl,
   (falsy_trigger_rejected s0 1 none false).2.2 (ScheduleArg.structured leafSpec)
     (mkFreshJob leafSpec 1 (WhenVal.num 5) 0) rfl⟩
